import Mathlib

/-!
Verification development for the ec2-auto-ami-manager repository
(src/ec2-auto-ami-manager.py).  The Python program is a linear, tag-driven
backup job; the shallow embedding below translates its policy mini-language
parser, schedule decision, expiry logic and the three per-region loops
(create_images, remove_images, copy_images) into executable Lean functions.
Remote AWS calls are modelled as oracles mapping a request to an outcome,
matching the capability interface the program consumes.
-/

set_option autoImplicit false
set_option linter.unnecessarySeqFocus false

namespace EC2AMI

/-! ## Python string primitives (character-level models)

The Python code manipulates tag strings with str.split, str.strip,
str.lower, slicing and str.isdigit.  These are modelled on the character
list underlying a `String`, with the exact semantics of the CPython
operations on ASCII data.
-/

/-- Model of Python `list.split(sep)` on a character list: splits at every
occurrence of `sep`, keeping empty parts; the empty string yields one empty
part, as in Python. -/
def splitChars (sep : Char) : List Char → List (List Char)
  | [] => [[]]
  | c :: cs =>
    if c = sep then [] :: splitChars sep cs
    else
      match splitChars sep cs with
      | [] => [[c]]
      | r :: rs => (c :: r) :: rs

/-- Model of Python `s.split(sep)` for a single-character separator. -/
def pySplit (s : String) (sep : Char) : List String :=
  (splitChars sep s.toList).map String.mk

/-- Model of Python `s.strip()` (whitespace trimmed from both ends). -/
def pyStrip (s : String) : String :=
  String.mk (((s.toList.dropWhile Char.isWhitespace).reverse.dropWhile
      Char.isWhitespace).reverse)

/-- ASCII lower-casing of one character, as Python `str.lower` acts on
ASCII data (the tag values handled by the program are ASCII). -/
def asciiLower (c : Char) : Char :=
  if 65 ≤ c.toNat ∧ c.toNat ≤ 90 then Char.ofNat (c.toNat + 32) else c

/-- Model of Python `s.lower()`. -/
def pyLower (s : String) : String :=
  String.mk (s.toList.map asciiLower)

/-- Model of Python `s[:3]` slicing. -/
def pyTake3 (s : String) : String :=
  String.mk (s.toList.take 3)

/-- Model of Python `s.isdigit()` on ASCII data: nonempty and all digits. -/
def isDigits (s : String) : Bool :=
  !s.toList.isEmpty && s.toList.all Char.isDigit

/-- Model of Python `int(s)` on a nonnegative digit string (possibly with
surrounding whitespace, which `int` ignores). -/
def pyToNat (s : String) : Nat :=
  (pyStrip s).toList.foldl (fun n c => 10 * n + (c.toNat - 48)) 0

/-- Number of occurrences of a character in a string. -/
def countChar (c : Char) (s : String) : Nat :=
  s.toList.count c

/-- Python `'|'.join(l)` used for the snapshot list in a log message. -/
def joinBar : List String → String
  | [] => ""
  | [s] => s
  | s :: rest => s ++ "|" ++ joinBar rest

/-- Python `str(x)` for an optional string: `str(None)` is `"None"` and
`str(s)` is `s` itself (models `str(backup_copy_to)` at line 205). -/
def pyStrOpt : Option String → String
  | some s => s
  | none => "None"

/-! ## Gregorian calendar

`datetime.date`, `datetime.timedelta` addition, ISO serialization
(`str(date)`), `strftime('%a')` weekday names and
`datetime.strptime(s, '%Y-%m-%d')` parsing are modelled over a plain
year/month/day record with proleptic Gregorian rules, as in CPython. -/

structure Date where
  year : Nat
  month : Nat
  day : Nat
deriving Repr, DecidableEq

structure DateTime where
  year : Nat
  month : Nat
  day : Nat
  hour : Nat
  minute : Nat
  second : Nat
deriving Repr, DecidableEq

/-- Calendar date of a timestamp. -/
def dateOf (t : DateTime) : Date := ⟨t.year, t.month, t.day⟩

/-- Gregorian leap-year rule. -/
def isLeap (y : Nat) : Bool :=
  (y % 4 = 0 && y % 100 ≠ 0) || y % 400 = 0

/-- Number of days of month `m` in year `y`. -/
def daysInMonth (y m : Nat) : Nat :=
  if m = 2 then (if isLeap y then 29 else 28)
  else if m = 4 ∨ m = 6 ∨ m = 9 ∨ m = 11 then 30
  else 31

/-- Days in year `y` strictly before month `m`. -/
def daysBeforeMonth (y m : Nat) : Nat :=
  (List.range (m - 1)).foldl (fun a i => a + daysInMonth y (i + 1)) 0

/-- Rata-die day number of a date (day 1 is 0001-01-01, a Monday in the
proleptic Gregorian calendar). -/
def rataDie (d : Date) : Nat :=
  let y := d.year - 1
  365 * y + y / 4 - y / 100 + y / 400 + daysBeforeMonth d.year d.month + d.day

/-- Lowercase three-letter weekday abbreviation of a date: the model of
`datetime.date.strftime(today, '%a').lower()` under the en_US / C locale
(line 94 of the source). -/
def weekdayAbbrev (d : Date) : String :=
  ["sun", "mon", "tue", "wed", "thu", "fri", "sat"].getD (rataDie d % 7) "sun"

/-- Successor date in the Gregorian calendar. -/
def nextDay (d : Date) : Date :=
  if d.day < daysInMonth d.year d.month then ⟨d.year, d.month, d.day + 1⟩
  else if d.month < 12 then ⟨d.year, d.month + 1, 1⟩
  else ⟨d.year + 1, 1, 1⟩

/-- Model of `date + datetime.timedelta(days=n)`. -/
def addDays (d : Date) : Nat → Date
  | 0 => d
  | n + 1 => addDays (nextDay d) n

/-- Zero-padded decimal rendering of a natural number to width `w`. -/
def pad (w n : Nat) : String :=
  let s := toString n
  String.mk (List.replicate (w - s.length) '0') ++ s

/-- Model of Python `str(date)`: ISO `YYYY-MM-DD` serialization. -/
def dateToString (d : Date) : String :=
  pad 4 d.year ++ "-" ++ pad 2 d.month ++ "-" ++ pad 2 d.day

/-- Model of `datetime.datetime.strptime(s, '%Y-%m-%d')` (line 310):
accepts three dash-separated digit groups forming a valid Gregorian date in
the year range 1-9999, rejects anything else with a ValueError (`none`). -/
def strptimeYmd (s : String) : Option Date :=
  match pySplit s '-' with
  | [ys, ms, ds] =>
    if isDigits ys && isDigits ms && isDigits ds then
      let y := pyToNat ys
      let m := pyToNat ms
      let d := pyToNat ds
      if 1 ≤ y && y ≤ 9999 && 1 ≤ m && m ≤ 12 && 1 ≤ d && d ≤ daysInMonth y m
        then some ⟨y, m, d⟩ else none
    else none
  | _ => none

/-- Timestamp at midnight of a date: the model of
`datetime.datetime.combine(date, datetime.time.min)` (line 311). -/
def atMidnight (d : Date) : DateTime := ⟨d.year, d.month, d.day, 0, 0, 0⟩

/-- Python `datetime` comparison: lexicographic on the six fields. -/
def dtLe (a b : DateTime) : Bool :=
  if a.year ≠ b.year then decide (a.year < b.year)
  else if a.month ≠ b.month then decide (a.month < b.month)
  else if a.day ≠ b.day then decide (a.day < b.day)
  else if a.hour ≠ b.hour then decide (a.hour < b.hour)
  else if a.minute ≠ b.minute then decide (a.minute < b.minute)
  else decide (a.second ≤ b.second)

/-- Modelled from the spec: "expiryDate ≤ today (comparison at day
granularity)" as a plain lexicographic order on year/month/day, stated
independently of the implementation for comparison against it. -/
def dateLexLe (e t : Date) : Prop :=
  e.year < t.year ∨
    (e.year = t.year ∧ (e.month < t.month ∨ (e.month = t.month ∧ e.day ≤ t.day)))

instance (e t : Date) : Decidable (dateLexLe e t) := by
  unfold dateLexLe; infer_instance

/-- The buggy strftime format of line 93, `'%Y-%M-%d_%H-%M-%S'`, rendered
field-for-field: `%M` is the minute directive, so the minute appears both
in the second position (where the month was intended) and in the fifth. -/
def todayDatetimeFmt (t : DateTime) : String :=
  pad 4 t.year ++ "-" ++ pad 2 t.minute ++ "-" ++ pad 2 t.day ++ "_" ++
    pad 2 t.hour ++ "-" ++ pad 2 t.minute ++ "-" ++ pad 2 t.second

/-- Modelled from the spec: "the generated image name must embed a full
timestamp (date+time)", i.e. the `'%Y-%m-%d_%H-%M-%S'` rendering with the
month in the second position. -/
def specFullTimestamp (t : DateTime) : String :=
  pad 4 t.year ++ "-" ++ pad 2 t.month ++ "-" ++ pad 2 t.day ++ "_" ++
    pad 2 t.hour ++ "-" ++ pad 2 t.minute ++ "-" ++ pad 2 t.second

/-! ## Policy tag decoding (create_images, lines 117-145)

The tag value is split on `;`, each segment on `=`; the dict comprehension
at line 123 unpacks each split into exactly a key and a value, lower-cases
and strips both, and raises ValueError when a segment does not split into
exactly two parts, i.e. when it does not contain exactly one `=`.  Later
segments overwrite earlier ones for the same (normalized) key, as in a
Python dict comprehension. -/

/-- The decoded configuration mapping: key/value pairs in segment order. -/
abbrev Config := List (String × String)

/-- One `key=value` segment: `none` models the ValueError raised by the
unpacking `k, v = option.split('=')` at lines 124-125. -/
def parseSeg (seg : String) : Option (String × String) :=
  match pySplit seg '=' with
  | [k, v] => some (pyStrip (pyLower k), pyStrip (pyLower v))
  | _ => none

/-- All segments, propagating the ValueError of any one of them. -/
def segsParse : List String → Option Config
  | [] => some []
  | s :: rest =>
    match parseSeg s, segsParse rest with
    | some kv, some kvs => some (kv :: kvs)
    | _, _ => none

/-- `decode` of the policy tag value: the dict comprehension at lines
123-125 together with the `except ValueError` handler at lines 126-128,
which records the raw tag value as `parse_error`.  The error payload is
that raw value. -/
def decode (v : String) : Except String Config :=
  match segsParse (pySplit v ';') with
  | some c => .ok c
  | none => .error v

/-- Dict lookup on the decoded configuration: the last occurrence of a key
wins, as in the Python dict comprehension. -/
def cfgGet (c : Config) (k : String) : Option String :=
  (c.reverse.find? (fun kv => kv.1 == k)).map (fun kv => kv.2)

/-- The configuration the caller proceeds with: the decoded mapping, or
`{'enable': 'no'}` when decoding raised (line 128). -/
def effectiveConfig (v : String) : Config :=
  match decode v with
  | .ok c => c
  | .error _ => [("enable", "no")]

/-- The strongly-typed view of the `backup_*` variables computed at lines
130-145 of create_images. -/
structure Policy where
  copyTo : Option String
  retention : Nat
  enable : Bool
  type : Option String
  copyTags : Bool
  noReboot : Bool
deriving Repr, DecidableEq

/-- Lines 130-145: `backup_copy_to`, `backup_retention` (digit-guarded with
a configurable default), `backup_enable`, `backup_type` (restricted to the
four recognized values, all else degrading to None), `backup_copy_tags`
and `backup_no_reboot` (the inverted reboot flag). -/
def parsePolicy (c : Config) (defaultRetention : Nat) : Policy :=
  { copyTo := cfgGet c "copyto"
    retention :=
      if isDigits (pyStrip ((cfgGet c "retention").getD "")) then
        pyToNat ((cfgGet c "retention").getD "")
      else defaultRetention
    enable :=
      match cfgGet c "enable" with
      | some v => v == "yes" || v == "true"
      | none => false
    type :=
      match cfgGet c "type" with
      | some t =>
        if t = "always" ∨ t = "daily" ∨ t = "weekly" ∨ t = "monthly" then some t
        else none
      | none => none
    copyTags :=
      match cfgGet c "copytags" with
      | some v => v == "yes" || v == "true"
      | none => false
    noReboot :=
      match cfgGet c "reboot" with
      | some v => !(v == "yes" || v == "true")
      | none => true }

/-- Line 169: the normalized weekday list built from the `when` entry,
`[wd.strip().lower()[:3] for wd in config.get('when').split(',')]`. -/
def whenWeekdays (w : String) : List String :=
  (pySplit w ',').map (fun wd => pyTake3 (pyLower (pyStrip wd)))

/-- Lines 173-175: the day-of-month list built from the `when` entry,
keeping only digit entries whose value lies in `range(1, 32)`. -/
def whenDays (w : String) : List Nat :=
  (pySplit w ',').filterMap (fun s =>
    if isDigits (pyStrip s) && 1 ≤ pyToNat s && pyToNat s ≤ 31 then
      some (pyToNat s)
    else none)

/-- The Python AttributeError raised by `None.split(...)` or
`None.title()` when the `when` (or `type`) field is absent. -/
def attrErr : String := "AttributeError: NoneType object has no attribute"

/-- The schedule decision of lines 158-176: the final value of
`backup_this_instance` given the decoded configuration and the evaluation
date.  `enable=false` gives false; `type=weekly` and `type=monthly` test
membership of the weekday abbreviation (resp. day of month) in the `when`
data, reading `config.get('when')` unconditionally, which raises
AttributeError (the `.error` branch) when the entry is absent; any other
type gives true. -/
def shouldBackupToday (c : Config) (dflt : Nat) (today : Date) :
    Except String Bool :=
  if (parsePolicy c dflt).enable = true then
    if (parsePolicy c dflt).type = some "weekly" then
      match cfgGet c "when" with
      | none => .error attrErr
      | some w => .ok (decide (weekdayAbbrev today ∈ whenWeekdays w))
    else if (parsePolicy c dflt).type = some "monthly" then
      match cfgGet c "when" with
      | none => .error attrErr
      | some w => .ok (decide (today.day ∈ whenDays w))
    else .ok true
  else .ok false

/-- Lines 179 and 203-205: the ExpiryTag value written on a created image,
`str(today_date + timedelta(days=backup_retention)) + ';' +
str(backup_copy_to)`. -/
def expiryTagValue (today : Date) (retention : Nat) (copyTo : Option String) :
    String :=
  dateToString (addDays today retention) ++ ";" ++ pyStrOpt copyTo

instance {ε α : Type} [DecidableEq ε] [DecidableEq α] :
    DecidableEq (Except ε α) := fun a b =>
  match a, b with
  | .ok x, .ok y =>
    if h : x = y then isTrue (h ▸ rfl)
    else isFalse (fun he => h (Except.ok.inj he))
  | .error x, .error y =>
    if h : x = y then isTrue (h ▸ rfl)
    else isFalse (fun he => h (Except.error.inj he))
  | .ok _, .error _ => isFalse (fun he => Except.noConfusion he)
  | .error _, .ok _ => isFalse (fun he => Except.noConfusion he)

/-! ## The three per-region loops

The remote AWS calls (create_image, copy_image, deregister, delete) are
modelled as oracles mapping the request data to an outcome; boto3 surfaces
a failed call as a ClientError carrying an error code and message.  Log
output is modelled as a list of events carrying the severity level; an
uncaught Python exception is the `.error` branch of `Except`, which aborts
the whole loop, exactly as an exception propagating out of the `for` body
would. -/

/-- Severity of a log line. -/
inductive Severity where
  | debug | info | warning | error
deriving Repr, DecidableEq

/-- One emitted log line. -/
structure Event where
  sev : Severity
  msg : String
deriving Repr, DecidableEq

/-- Outcome of one remote AWS call: the returned resource id, or a
ClientError with an error code and message. -/
inductive RemoteOutcome where
  | ok (id : String)
  | err (code : String) (msg : String)
deriving Repr, DecidableEq

/-- An EC2 instance as the loop sees it: its id and its tag list. -/
structure Instance where
  instanceId : String
  tags : List (String × String)
deriving Repr, DecidableEq

/-- An AMI as the loops see it: id, name, description, tags, and the
snapshot id of each block device mapping that has an Ebs entry (`none`
models a mapping without one, skipped by the `'Ebs' in snapshot` test). -/
structure Image where
  imageId : String
  name : String
  description : String
  tags : List (String × String)
  blockDeviceMappings : List (Option String)
deriving Repr, DecidableEq

/-- One `create_tags` request: the resource it targets and the key/value
pairs written (later writes overwrite earlier ones per key). -/
structure TagWrite where
  resource : String
  tags : List (String × String)
deriving Repr, DecidableEq

/-- The last tag occurrence for a key, as the Python loop over
`instance.tags` leaves the variable bound to the last match. -/
def lookupTagLast (tags : List (String × String)) (key : String) :
    Option String :=
  (tags.reverse.find? (fun kv => kv.1 == key)).map (fun kv => kv.2)

/-- Error raised when `backup_enable` is referenced at line 158 without any
custom-tag assignment having bound it (cannot happen for instances produced
by the tag-key filter). -/
def nameErr : String := "NameError: backup_enable is not defined"

/-- The ValueError of an unpacking `a, b = s.split(';')` against a value
without exactly one semicolon (line 252). -/
def valErr : String := "ValueError: unpacking tag value split on semicolon"

def msgCreating (imageId iname expire : String) : String :=
  "Creating image (" ++ imageId ++ ") for (" ++ iname ++
    ") to be deleted on (" ++ expire ++ ")"

def msgDuplicate (id iname : String) : String :=
  "Skipping instance (" ++ id ++ ") (" ++ iname ++ ") image already exist"

def msgCreateError (id emsg : String) : String :=
  "Error trying to create image for " ++ id ++ ": " ++ emsg

def msgParseError (id iname raw : String) : String :=
  "Error in instance (" ++ id ++ ") (" ++ iname ++ ") parsing tag value [" ++
    raw ++ "]"

def msgDisabled (id iname : String) : String :=
  "Backup disabled for instance (" ++ id ++ ") (" ++ iname ++ ")"

def msgSkipping (id iname ty w : String) : String :=
  "Skipping instance (" ++ id ++ ") (" ++ iname ++ "): Backup is " ++ ty ++
    " on " ++ w

def msgCopying (imageId target copyId : String) : String :=
  "Copying image (" ++ imageId ++ ") to (" ++ target ++ ") with id (" ++
    copyId ++ ")"

def msgCopyError (imageId target emsg : String) : String :=
  "Error copying image (" ++ imageId ++ ") to (" ++ target ++ "): " ++ emsg

def msgRemoving (imageId snaps expire : String) : String :=
  "Removing image (" ++ imageId ++ ") with snapshots (" ++ snaps ++
    ") expired on " ++ expire

def msgDeregError (imageId emsg : String) : String :=
  "Error to deregister image (" ++ imageId ++ "): " ++ emsg

def msgDelSnapError (snapId emsg : String) : String :=
  "Error to delete snapshot (" ++ snapId ++ "): " ++ emsg

def msgKeeping (imageId expire : String) : String :=
  "Keeping image (" ++ imageId ++ ") until (" ++ expire ++ ")"

/-- The image name built at line 180, `'{} - {}'.format(instance_id,
name_qualifier)`, where the qualifier is the (buggy) full-timestamp string
for `type=always` and the plain calendar date otherwise (lines 162-165). -/
def imageNameFor (inst : Instance) (p : Policy) (now : DateTime) : String :=
  inst.instanceId ++ " - " ++
    (if p.type = some "always" then todayDatetimeFmt now
     else dateToString (dateOf now))

/-- Whether an `Except` result is a success. -/
def isOkE {ε α : Type} : Except ε α → Bool
  | .ok _ => true
  | .error _ => false

/-- Sequential processing of a list with Python exception semantics: the
first uncaught exception aborts the whole iteration. -/
def exceptMapM {ε α β : Type} (f : α → Except ε β) : List α → Except ε (List β)
  | [] => .ok []
  | a :: l =>
    match f a with
    | .error e => .error e
    | .ok b =>
      match exceptMapM f l with
      | .error e => .error e
      | .ok bs => .ok (b :: bs)

/-- Concatenation of per-step (events, tag writes) pairs. -/
def concatPairs (l : List (List Event × List TagWrite)) :
    List Event × List TagWrite :=
  l.foldr (fun p a => (p.1 ++ a.1, p.2 ++ a.2)) ([], [])

/-- The body of the instance loop of create_images (lines 90-231) for one
instance: decode the custom tag (falling back to `enable=no` and recording
the raw value on a parse error), evaluate the schedule, and either request
image creation — a duplicate-name ClientError is skipped with an info line,
any other ClientError is logged at error level, and on success the
instance tags (when `copytags` is set) and the ExpiryTag are written — or
emit the disabled/parse-error/skip diagnostic of lines 212-231.  The
parse-error diagnostic is only reached when `parse_error` is truthy, i.e.
a nonempty string. -/
def perInstanceCreate (ct : String) (dflt : Nat) (now : DateTime)
    (orc : String → RemoteOutcome) (inst : Instance) :
    Except String (List Event × List TagWrite) :=
  let today := dateOf now
  let iname := (lookupTagLast inst.tags "Name").getD inst.instanceId
  match lookupTagLast inst.tags ct with
  | none => .error nameErr
  | some tv =>
    let cfg := effectiveConfig tv
    let parseErr : Option String :=
      match decode tv with
      | .ok _ => none
      | .error e => some e
    let p := parsePolicy cfg dflt
    match shouldBackupToday cfg dflt today with
    | .error e => .error e
    | .ok doBackup =>
      if doBackup then
        match orc (imageNameFor inst p now) with
        | .ok imgId =>
          .ok ([⟨.warning, msgCreating imgId iname
                  (dateToString (addDays today p.retention))⟩],
               (if p.copyTags then [⟨imgId, inst.tags⟩] else []) ++
                 [⟨imgId, [(ct, expiryTagValue today p.retention p.copyTo)]⟩])
        | .err code emsg =>
          if code = "InvalidAMIName.Duplicate" then
            .ok ([⟨.info, msgDuplicate inst.instanceId iname⟩], [])
          else
            .ok ([⟨.error, msgCreateError inst.instanceId emsg⟩], [])
      else
        if p.enable = false then
          match parseErr with
          | some raw =>
            if raw.toList.isEmpty then
              .ok ([⟨.info, msgDisabled inst.instanceId iname⟩], [])
            else
              .ok ([⟨.error, msgParseError inst.instanceId iname raw⟩], [])
          | none => .ok ([⟨.info, msgDisabled inst.instanceId iname⟩], [])
        else
          match p.type with
          | none => .error attrErr
          | some ty =>
            match cfgGet cfg "when" with
            | none => .error attrErr
            | some w => .ok ([⟨.info, msgSkipping inst.instanceId iname ty w⟩], [])

/-- create_images over the filtered instance list of a region. -/
def create_images (ct : String) (dflt : Nat) (now : DateTime)
    (orc : String → RemoteOutcome) (insts : List Instance) :
    Except String (List (List Event × List TagWrite)) :=
  exceptMapM (perInstanceCreate ct dflt now orc) insts

/-- Lines 258-259 of copy_images: the copy targets actually attempted are
the stripped comma-separated entries of the tag component that are members
of the configured region list. -/
def resolveCopyTargets (copyTargets : String) (awsRegions : List String) :
    List String :=
  ((pySplit copyTargets ',').map pyStrip).filter
    (fun t => decide (t ∈ awsRegions))

/-- Lines 260-285: one copy attempt.  On success the new image receives the
source image tags and then the cleared ExpiryTag, and the source image
receives the cleared ExpiryTag too; on a ClientError the failure is logged
at error level and nothing is written. -/
def copyOneTarget (ct : String) (img : Image) (expireDate : String)
    (orc : String → String → RemoteOutcome) (target : String) :
    List Event × List TagWrite :=
  match orc img.imageId target with
  | .ok copyId =>
    ([⟨.warning, msgCopying img.imageId target copyId⟩],
     [⟨copyId, img.tags⟩,
      ⟨copyId, [(ct, expireDate ++ ";None")]⟩,
      ⟨img.imageId, [(ct, expireDate ++ ";None")]⟩])
  | .err _ emsg =>
    ([⟨.error, msgCopyError img.imageId target emsg⟩], [])

/-- Lines 250-285: processing of one tag of one image in copy_images.  The
tag value of the custom tag is unpacked by `expire_date, copy_targets =
tag['Value'].split(';')`, a ValueError (uncaught) unless the value has
exactly one semicolon; each resolved target is then attempted. -/
def perImageTagCopy (ct : String) (regions : List String)
    (orc : String → String → RemoteOutcome) (img : Image)
    (kv : String × String) : Except String (List Event × List TagWrite) :=
  if kv.1 = ct then
    match pySplit kv.2 ';' with
    | [expireDate, copyTs] =>
      .ok (concatPairs ((resolveCopyTargets copyTs regions).map
            (copyOneTarget ct img expireDate orc)))
    | _ => .error valErr
  else .ok ([], [])

/-- The body of the image loop of copy_images for one image. -/
def perImageCopy (ct : String) (regions : List String)
    (orc : String → String → RemoteOutcome) (img : Image) :
    Except String (List Event × List TagWrite) :=
  (exceptMapM (perImageTagCopy ct regions orc img) img.tags).map concatPairs

/-- copy_images over the filtered image list of a region. -/
def copy_images (ct : String) (regions : List String)
    (orc : String → String → RemoteOutcome) (imgs : List Image) :
    Except String (List (List Event × List TagWrite)) :=
  exceptMapM (perImageCopy ct regions orc) imgs

/-- Lines 306-311 of remove_images: the expiry decision for one tag value.
The date component is the part before the first semicolon; strptime parses
it (ValueError, modelled as `none`, if malformed) and the parsed datetime
is compared against today at midnight. -/
def expiredDecision (tagValue : String) (today : Date) : Option Bool :=
  match strptimeYmd ((pySplit tagValue ';').headD "") with
  | none => none
  | some ed => some (dtLe (atMidnight ed) (atMidnight today))

/-- Lines 302-339: processing of one tag of one image in remove_images.
An expired image logs the removal warning, then deregisters; a deregister
ClientError is logged and the snapshot loop is skipped; each snapshot
delete failure is logged and the snapshot loop continues. -/
def perImageRemoveTag (ct : String) (deregO delO : String → RemoteOutcome)
    (today : Date) (img : Image) (kv : String × String) :
    Except String (List Event) :=
  if kv.1 = ct then
    match expiredDecision kv.2 today with
    | none => .error valErr
    | some expired =>
      let expireStr := (pySplit kv.2 ';').headD ""
      if expired then
        let snapshots := img.blockDeviceMappings.filterMap id
        let removeEvt : Event :=
          ⟨.warning, msgRemoving img.imageId (joinBar snapshots) expireStr⟩
        match deregO img.imageId with
        | .ok _ =>
          .ok (removeEvt :: snapshots.filterMap (fun s =>
            match delO s with
            | .ok _ => none
            | .err _ emsg => some ⟨.error, msgDelSnapError s emsg⟩))
        | .err _ emsg =>
          .ok [removeEvt, ⟨.error, msgDeregError img.imageId emsg⟩]
      else .ok [⟨.info, msgKeeping img.imageId expireStr⟩]
  else .ok []

/-- The body of the image loop of remove_images for one image. -/
def perImageRemove (ct : String) (deregO delO : String → RemoteOutcome)
    (today : Date) (img : Image) : Except String (List Event) :=
  (exceptMapM (perImageRemoveTag ct deregO delO today img) img.tags).map
    List.flatten

/-- remove_images over the filtered image list of a region. -/
def remove_images (ct : String) (deregO delO : String → RemoteOutcome)
    (today : Date) (imgs : List Image) :
    Except String (List (List Event)) :=
  exceptMapM (perImageRemove ct deregO delO today) imgs

/-- An oracle under which every remote call succeeds. -/
def okOrc : String → RemoteOutcome := fun _ => .ok ""

/-- A two-argument oracle under which every remote call succeeds. -/
def okOrc2 : String → String → RemoteOutcome := fun _ _ => .ok ""

/-- An oracle under which every remote call fails with a generic
ClientError. -/
def errOrc : String → RemoteOutcome := fun _ => .err "SomeError" "boom"

/-- A two-argument oracle under which every remote call fails. -/
def errOrc2 : String → String → RemoteOutcome := fun _ _ => .err "SomeError" "boom"

/-- The default custom tag name (source line 55). -/
def ctDefault : String := "scheduler:ec2-auto-ami-creation"

/-! Concrete fixtures used to evaluate the theorems on explicit inputs. -/

/-- A Monday morning (2024-01-15 was a Monday). -/
def dtWit : DateTime := ⟨2024, 1, 15, 10, 30, 0⟩

def cfgWeekly : Config := [("enable", "yes"), ("type", "weekly"), ("when", "mon,wed")]

def cfgMonthly : Config := [("enable", "yes"), ("type", "monthly"), ("when", "1,15")]

def cfgWeeklyNoWhen : Config := [("enable", "yes"), ("type", "weekly")]

def cfgAlways : Config := [("enable", "yes"), ("type", "always")]

/-- The round-trip policy string of the spec. -/
def sRound : String := "enable=yes;type=daily;retention=7;copyto=us-west-2"

/-- The config the round-trip policy string decodes to. -/
def cfgRound : Config :=
  [("enable", "yes"), ("type", "daily"), ("retention", "7"), ("copyto", "us-west-2")]

/-- An instance carrying the round-trip policy string. -/
def instRound : Instance := ⟨"i-1", [(ctDefault, sRound)]⟩

/-- An instance whose policy tag value is the empty string. -/
def instEmptyTag : Instance := ⟨"i-1", [(ctDefault, "")]⟩

/-- An instance with a plain enabled daily policy. -/
def instDaily : Instance := ⟨"i-1", [(ctDefault, "enable=yes;type=daily")]⟩

/-- An image created by the system, expiring 2024-01-10 with one copy
target, one Ebs-backed device and one device without an Ebs entry. -/
def imgWit : Image :=
  ⟨"ami-1", "n", "d", [(ctDefault, "2024-01-10;us-west-2")], [some "snap-1", none]⟩

/-- An image whose expiry tag value has no semicolon. -/
def imgNoSemi : Image := ⟨"ami-9", "n", "d", [(ctDefault, "2024-01-10")], []⟩

/-- A copy oracle returning a fixed new image id. -/
def copyOrcWit : String → String → RemoteOutcome := fun _ _ => .ok "ami-c"

/-! ## Lemmas about the string primitives -/

theorem splitChars_ne_nil (sep : Char) (l : List Char) : splitChars sep l ≠ [] := by
  induction l with
  | nil => simp [splitChars]
  | cons c cs ih =>
    simp only [splitChars]
    split
    · simp
    · cases h : splitChars sep cs with
      | nil => simp
      | cons r rs => simp

theorem length_splitChars (sep : Char) (l : List Char) :
    (splitChars sep l).length = l.count sep + 1 := by
  induction l with
  | nil => simp [splitChars]
  | cons c cs ih =>
    simp only [splitChars]
    by_cases hc : c = sep
    · simp [hc, List.count_cons, ih]
    · cases h : splitChars sep cs with
      | nil => exact absurd h (splitChars_ne_nil sep cs)
      | cons r rs =>
        rw [h] at ih
        simp [List.count_cons, hc, ← ih]

theorem splitChars_of_not_mem {sep : Char} {l : List Char} (h : sep ∉ l) :
    splitChars sep l = [l] := by
  induction l with
  | nil => rfl
  | cons c cs ih =>
    have h1 : ¬ c = sep := by
      intro hh
      exact h (hh ▸ List.mem_cons_self c cs)
    have h2 : sep ∉ cs := fun hm => h (List.mem_cons_of_mem c hm)
    simp only [splitChars, if_neg h1, ih h2]

theorem splitChars_append {sep : Char} {xs : List Char} (ys : List Char)
    (h : sep ∉ xs) :
    splitChars sep (xs ++ sep :: ys) = xs :: splitChars sep ys := by
  induction xs with
  | nil => simp [splitChars]
  | cons c cs ih =>
    have h1 : ¬ c = sep := by
      intro hh
      exact h (hh ▸ List.mem_cons_self c cs)
    have h2 : sep ∉ cs := fun hm => h (List.mem_cons_of_mem c hm)
    simp only [List.cons_append, splitChars, if_neg h1]
    rw [show splitChars sep (cs.append (sep :: ys)) = cs :: splitChars sep ys
          from ih h2]

theorem pySplit_append (a b : String) (ha : ';' ∉ a.toList) (hb : ';' ∉ b.toList) :
    pySplit (a ++ ";" ++ b) ';' = [a, b] := by
  have hdata : (a ++ ";" ++ b).toList = a.toList ++ ';' :: b.toList := by
    show (a.data ++ ";".data ++ b.data) = a.data ++ ';' :: b.data
    simp [List.append_assoc]
  unfold pySplit
  rw [hdata, splitChars_append _ ha, splitChars_of_not_mem hb]
  show [String.mk a.data, String.mk b.data] = [a, b]
  rfl

theorem mem_concatPairs_snd {α : Type} (f : α → List Event × List TagWrite)
    (l : List α) (a : α) (ha : a ∈ l) (x : TagWrite) (hx : x ∈ (f a).2) :
    x ∈ (concatPairs (l.map f)).2 := by
  induction l with
  | nil => cases ha
  | cons b bs ih =>
    have hstep : (concatPairs ((b :: bs).map f)).2 =
        (f b).2 ++ (concatPairs (bs.map f)).2 := rfl
    rw [hstep]
    rcases List.mem_cons.mp ha with h | h
    · exact List.mem_append_left _ (h ▸ hx)
    · exact List.mem_append_right _ (ih h)

theorem toList_isEmpty_iff (s : String) : s.toList.isEmpty = true ↔ s = "" := by
  cases s with
  | mk data =>
    cases data with
    | nil => simp [String.toList]
    | cons c cs =>
      simp only [String.toList, List.isEmpty]
      constructor
      · intro h
        cases h
      · intro h
        have hd : c :: cs = ([] : List Char) := congrArg String.data h
        cases hd

/-! ## Lemmas about decoding -/

theorem parseSeg_eq_none_iff (s : String) :
    parseSeg s = none ↔ countChar '=' s ≠ 1 := by
  have hlen : (pySplit s '=').length = countChar '=' s + 1 := by
    simp [pySplit, countChar, length_splitChars]
  unfold parseSeg
  rcases h : pySplit s '=' with _ | ⟨k, _ | ⟨v, _ | ⟨w, rest⟩⟩⟩ <;>
    (rw [h] at hlen; simp_all) <;> omega

theorem segsParse_eq_none_iff (l : List String) :
    segsParse l = none ↔ ∃ s ∈ l, parseSeg s = none := by
  induction l with
  | nil => simp [segsParse]
  | cons a t ih =>
    simp only [segsParse]
    cases ha : parseSeg a <;> cases ht : segsParse t <;> simp_all

theorem decode_isOk_iff (v : String) :
    isOkE (decode v) = true ↔ ∀ seg ∈ pySplit v ';', countChar '=' seg = 1 := by
  unfold decode
  cases h : segsParse (pySplit v ';') with
  | none =>
    rw [segsParse_eq_none_iff] at h
    simp only [isOkE]
    constructor
    · intro hfalse
      cases hfalse
    · intro hall
      obtain ⟨s, hs, hnone⟩ := h
      exact absurd (hall s hs) ((parseSeg_eq_none_iff s).mp hnone)
  | some c =>
    simp only [isOkE, true_iff]
    intro seg hseg
    by_contra hne
    have : segsParse (pySplit v ';') = none :=
      (segsParse_eq_none_iff _).mpr ⟨seg, hseg, (parseSeg_eq_none_iff seg).mpr hne⟩
    rw [h] at this
    cases this

theorem decode_error_val {v e : String} (h : decode v = .error e) : e = v := by
  unfold decode at h
  cases hs : segsParse (pySplit v ';') <;> rw [hs] at h
  · exact (Except.error.inj h).symm
  · cases h

theorem effectiveConfig_of_fail {v : String} (h : isOkE (decode v) = false) :
    effectiveConfig v = [("enable", "no")] := by
  unfold effectiveConfig
  cases hd : decode v with
  | ok c => rw [hd] at h; cases h
  | error e => rfl

theorem parsePolicy_disabled (dflt : Nat) :
    (parsePolicy [("enable", "no")] dflt).enable = false := rfl

theorem shouldBackupToday_disabled (dflt : Nat) (d : Date) :
    shouldBackupToday [("enable", "no")] dflt d = .ok false := rfl

/-! ## The expiry comparison -/

theorem dtLe_atMidnight (e t : Date) :
    dtLe (atMidnight e) (atMidnight t) = decide (dateLexLe e t) := by
  simp only [dtLe, atMidnight, dateLexLe]
  by_cases h1 : e.year = t.year <;> by_cases h2 : e.month = t.month <;>
    by_cases h3 : e.day = t.day <;>
      simp [h1, h2, h3, decide_eq_decide] <;> omega

/-! ## Claim theorems -/

/-- Claim C1: for every policy with enable=true and type=weekly, the
schedule decision is true if and only if the three-letter lowercase
weekday abbreviation of today is a member of the normalized `when` list of
the policy. -/
theorem weekly_backup_iff_weekday_mem (c : Config) (dflt : Nat) (w : String)
    (d : Date)
    (hen : (parsePolicy c dflt).enable = true)
    (hty : (parsePolicy c dflt).type = some "weekly")
    (hw : cfgGet c "when" = some w) :
    shouldBackupToday c dflt d = .ok (decide (weekdayAbbrev d ∈ whenWeekdays w))
      ∧ (shouldBackupToday c dflt d = .ok true ↔
          weekdayAbbrev d ∈ whenWeekdays w) := by
  have h1 : shouldBackupToday c dflt d
      = .ok (decide (weekdayAbbrev d ∈ whenWeekdays w)) := by
    unfold shouldBackupToday
    rw [if_pos hen, if_pos hty, hw]
  refine ⟨h1, ?_⟩
  rw [h1]
  simp

/-- Witness for C1: with when={mon,wed}, backup happens on Monday
2024-01-15 and not on Tuesday 2024-01-16. -/
theorem weekly_backup_iff_weekday_mem_witness :
    shouldBackupToday cfgWeekly 2 ⟨2024, 1, 15⟩ = .ok true ∧
    ¬ shouldBackupToday cfgWeekly 2 ⟨2024, 1, 16⟩ = .ok true := by
  constructor
  · exact (weekly_backup_iff_weekday_mem cfgWeekly 2 "mon,wed" ⟨2024, 1, 15⟩
      (by decide) (by decide) (by decide)).2.mpr (by decide)
  · intro h
    exact absurd ((weekly_backup_iff_weekday_mem cfgWeekly 2 "mon,wed"
      ⟨2024, 1, 16⟩ (by decide) (by decide) (by decide)).2.mp h) (by decide)

/-- Claim C2: for every policy with enable=true and type=monthly, the
schedule decision is true if and only if the day of month of today is a
member of the day list built from `when`, whose entries are exactly the
digit entries with value in 1-31 (all other entries being dropped by the
total filter, without an error). -/
theorem monthly_backup_iff_day_mem (c : Config) (dflt : Nat) (w : String)
    (d : Date)
    (hen : (parsePolicy c dflt).enable = true)
    (hty : (parsePolicy c dflt).type = some "monthly")
    (hw : cfgGet c "when" = some w) :
    shouldBackupToday c dflt d = .ok (decide (d.day ∈ whenDays w))
      ∧ (shouldBackupToday c dflt d = .ok true ↔ d.day ∈ whenDays w)
      ∧ (∀ x ∈ whenDays w, 1 ≤ x ∧ x ≤ 31) := by
  have h1 : shouldBackupToday c dflt d = .ok (decide (d.day ∈ whenDays w)) := by
    unfold shouldBackupToday
    rw [if_pos hen, hty, if_neg (by simp), if_pos rfl, hw]
  refine ⟨h1, by rw [h1]; simp, ?_⟩
  intro x hx
  simp only [whenDays, List.mem_filterMap] at hx
  obtain ⟨a, _, hfa⟩ := hx
  split at hfa
  · next hcond =>
    simp only [Bool.and_eq_true, decide_eq_true_eq] at hcond
    cases hfa
    exact ⟨hcond.1.2, hcond.2⟩
  · cases hfa

/-- Witness for C2: with when={1,15}, backup happens on the 15th and not
on the 16th. -/
theorem monthly_backup_iff_day_mem_witness :
    shouldBackupToday cfgMonthly 2 ⟨2024, 1, 15⟩ = .ok true ∧
    ¬ shouldBackupToday cfgMonthly 2 ⟨2024, 1, 16⟩ = .ok true ∧
    (∀ x ∈ whenDays "1,15", 1 ≤ x ∧ x ≤ 31) := by
  refine ⟨?_, ?_, ?_⟩
  · exact (monthly_backup_iff_day_mem cfgMonthly 2 "1,15" ⟨2024, 1, 15⟩
      (by decide) (by decide) (by decide)).2.1.mpr (by decide)
  · intro h
    exact absurd ((monthly_backup_iff_day_mem cfgMonthly 2 "1,15"
      ⟨2024, 1, 16⟩ (by decide) (by decide) (by decide)).2.1.mp h) (by decide)
  · exact (monthly_backup_iff_day_mem cfgMonthly 2 "1,15" ⟨2024, 1, 15⟩
      (by decide) (by decide) (by decide)).2.2

/-- Claim C3: the expiry decision of remove_images compares the parsed
expiry date against today at day granularity: it deletes exactly when
expiryDate ≤ today in the year/month/day lexicographic order, so a date
equal to today is expired and a later date is not. -/
theorem expiry_le_today_day_granularity (v : String) (e t : Date)
    (h : strptimeYmd ((pySplit v ';').headD "") = some e) :
    expiredDecision v t = some (decide (dateLexLe e t)) := by
  unfold expiredDecision
  rw [h]
  show some (dtLe (atMidnight e) (atMidnight t)) = _
  rw [dtLe_atMidnight]

/-- Witness for C3: an image expiring 2024-01-15 is deleted on 2024-01-15,
an image expiring 2024-01-16 is kept on 2024-01-15. -/
theorem expiry_le_today_day_granularity_witness :
    expiredDecision "2024-01-15;None" ⟨2024, 1, 15⟩ = some true ∧
    expiredDecision "2024-01-16;None" ⟨2024, 1, 15⟩ = some false := by
  constructor
  · rw [expiry_le_today_day_granularity "2024-01-15;None" ⟨2024, 1, 15⟩
      ⟨2024, 1, 15⟩ (by decide)]
    decide
  · rw [expiry_le_today_day_granularity "2024-01-16;None" ⟨2024, 1, 16⟩
      ⟨2024, 1, 15⟩ (by decide)]
    decide

/-- Claim C4: the policy string of the spec decodes to the expected policy
(enable, daily, retention 7, copy target us-west-2), the schedule decision
is true on 2024-03-01, and creating on 2024-03-01 writes the ExpiryTag
value 2024-03-08;us-west-2 — the serialization of today plus the retention
days, a semicolon, and the copy-target list. -/
theorem policy_roundtrip_expiry_tag :
    decode sRound = .ok cfgRound ∧
    parsePolicy cfgRound 2 =
      ⟨some "us-west-2", 7, true, some "daily", false, true⟩ ∧
    shouldBackupToday cfgRound 2 ⟨2024, 3, 1⟩ = .ok true ∧
    expiryTagValue ⟨2024, 3, 1⟩ (parsePolicy cfgRound 2).retention
      (parsePolicy cfgRound 2).copyTo = "2024-03-08;us-west-2" ∧
    perInstanceCreate ctDefault 2 ⟨2024, 3, 1, 10, 0, 0⟩ (fun _ => .ok "ami-1")
      instRound =
      .ok ([⟨.warning, msgCreating "ami-1" "i-1" "2024-03-08"⟩],
           [⟨"ami-1", [(ctDefault, "2024-03-08;us-west-2")]⟩]) := by
  decide

/-- Claim C5 (code bug): for type=always the schedule decision is true,
but the name qualifier is built with the strftime format
`'%Y-%M-%d_%H-%M-%S'` of line 93, whose second directive is the minute,
not the month: at 2024-03-01 05:07:09 the qualifier is
2024-07-01_05-07-09, which does not embed the month, unlike the full
timestamp the spec requires. -/
theorem always_name_qualifier_format_bug :
    shouldBackupToday cfgAlways 2 ⟨2024, 3, 1⟩ = .ok true ∧
    shouldBackupToday cfgAlways 2 ⟨2024, 7, 1⟩ = .ok true ∧
    todayDatetimeFmt ⟨2024, 3, 1, 5, 7, 9⟩ = "2024-07-01_05-07-09" ∧
    specFullTimestamp ⟨2024, 3, 1, 5, 7, 9⟩ = "2024-03-01_05-07-09" ∧
    todayDatetimeFmt ⟨2024, 3, 1, 5, 7, 9⟩ ≠
      specFullTimestamp ⟨2024, 3, 1, 5, 7, 9⟩ ∧
    imageNameFor ⟨"i-1", []⟩ (parsePolicy cfgAlways 2) ⟨2024, 3, 1, 5, 7, 9⟩ =
      "i-1 - 2024-07-01_05-07-09" := by
  decide

/-- Claim C8: a copy is attempted to a requested (stripped) target exactly
when it is a member of the configured region list — the attempted set is
the intersection — and the concrete example of the spec holds, with the
unknown target dropped silently. -/
theorem resolve_copy_targets_intersection (s : String) (rs : List String)
    (t : String) :
    (t ∈ resolveCopyTargets s rs ↔
      t ∈ (pySplit s ',').map pyStrip ∧ t ∈ rs) ∧
    resolveCopyTargets "us-west-2,eu-bogus" ["us-east-1", "us-west-2"] =
      ["us-west-2"] := by
  constructor
  · simp [resolveCopyTargets, List.mem_filter]
  · decide

/-- Witness for C8 at the example of the spec. -/
theorem resolve_copy_targets_intersection_witness :
    "us-west-2" ∈ resolveCopyTargets "us-west-2,eu-bogus"
      ["us-east-1", "us-west-2"] ∧
    "eu-bogus" ∉ resolveCopyTargets "us-west-2,eu-bogus"
      ["us-east-1", "us-west-2"] := by
  constructor
  · exact (resolve_copy_targets_intersection "us-west-2,eu-bogus"
      ["us-east-1", "us-west-2"] "us-west-2").1.mpr ⟨by decide, by decide⟩
  · intro hmem
    exact absurd ((resolve_copy_targets_intersection "us-west-2,eu-bogus"
      ["us-east-1", "us-west-2"] "eu-bogus").1.mp hmem).2 (by decide)

/-- Claim C10: for a policy with enable=true and type weekly or monthly
whose configuration has no `when` entry, the schedule evaluation reads the
absent field and raises AttributeError: it ends in the error branch
instead of a true/false decision. -/
theorem weekly_monthly_without_when_not_total (c : Config) (dflt : Nat)
    (d : Date)
    (hen : (parsePolicy c dflt).enable = true)
    (hty : (parsePolicy c dflt).type = some "weekly" ∨
           (parsePolicy c dflt).type = some "monthly")
    (hw : cfgGet c "when" = none) :
    shouldBackupToday c dflt d = .error attrErr := by
  unfold shouldBackupToday
  rcases hty with hty | hty
  · rw [if_pos hen, if_pos hty, hw]
  · rw [if_pos hen, hty, if_neg (by simp), if_pos rfl, hw]

/-- Witness for C10: an enabled weekly policy without a when entry errors
instead of deciding. -/
theorem weekly_monthly_without_when_not_total_witness :
    shouldBackupToday cfgWeeklyNoWhen 2 ⟨2024, 1, 15⟩ = .error attrErr :=
  weekly_monthly_without_when_not_total cfgWeeklyNoWhen 2 ⟨2024, 1, 15⟩
    (by decide) (Or.inl (by decide)) (by decide)

/-! ## The parse-error diagnostic branch of create_images -/

theorem perInstanceCreate_parse_error (ct : String) (dflt : Nat)
    (now : DateTime) (orc : String → RemoteOutcome) (inst : Instance)
    (tv : String)
    (hname : lookupTagLast inst.tags "Name" = none)
    (hct : lookupTagLast inst.tags ct = some tv)
    (hdec : decode tv = .error tv)
    (hne : tv ≠ "") :
    perInstanceCreate ct dflt now orc inst =
      .ok ([⟨.error, msgParseError inst.instanceId inst.instanceId tv⟩], []) := by
  have hemp : tv.toList.isEmpty = false := by
    cases h : tv.toList.isEmpty
    · rfl
    · exact absurd ((toList_isEmpty_iff tv).mp h) hne
  simp only [perInstanceCreate, hname, hct, effectiveConfig, hdec]
  simp [shouldBackupToday_disabled, parsePolicy_disabled, hemp]
  intro hdata
  apply hne
  cases tv with
  | mk l =>
    simp only at hdata
    subst hdata
    rfl

/-- Counterexample to C6 as stated: the empty tag value fails decoding
(its single empty segment contains no equal sign), and the effective
policy is disabled, but the failure is surfaced as an info-level Backup
disabled line rather than an error-level diagnostic carrying the raw
string, because the truthiness test `if parse_error:` at line 214 is false
for the empty string. -/
theorem empty_tag_parse_error_info_diagnostic :
    decode "" = .error "" ∧
    perInstanceCreate ctDefault 2 dtWit okOrc instEmptyTag =
      .ok ([⟨.info, msgDisabled "i-1" "i-1"⟩], []) := by
  decide

/-- Claim C6 (amended): decoding fails exactly when some semicolon
separated segment does not contain exactly one equal sign; on failure the
error payload is the raw string, the effective policy is disabled so no
image is created, and — when the malformed string is nonempty — the raw
string is surfaced in an error-level diagnostic. -/
theorem decode_failure_semantics (v : String) (dflt : Nat) (d : Date)
    (now : DateTime) (orc : String → RemoteOutcome) (id : String) :
    (isOkE (decode v) = true ↔
      ∀ seg ∈ pySplit v ';', countChar '=' seg = 1) ∧
    (∀ e, decode v = .error e → e = v) ∧
    (isOkE (decode v) = false →
      (parsePolicy (effectiveConfig v) dflt).enable = false ∧
      shouldBackupToday (effectiveConfig v) dflt d = .ok false) ∧
    (isOkE (decode v) = false → v ≠ "" →
      perInstanceCreate ctDefault dflt now orc ⟨id, [(ctDefault, v)]⟩ =
        .ok ([⟨.error, msgParseError id id v⟩], [])) := by
  refine ⟨decode_isOk_iff v, fun e he => decode_error_val he, ?_, ?_⟩
  · intro hfail
    rw [effectiveConfig_of_fail hfail]
    exact ⟨parsePolicy_disabled dflt, shouldBackupToday_disabled dflt d⟩
  · intro hfail hne
    have hdv : decode v = .error v := by
      cases hd : decode v with
      | ok c => rw [hd] at hfail; cases hfail
      | error e =>
        have hev : e = v := decode_error_val hd
        rw [hev]
    exact perInstanceCreate_parse_error ctDefault dflt now orc
      ⟨id, [(ctDefault, v)]⟩ v rfl rfl hdv hne

/-- Witness for C6 (amended) at the malformed tag of the spec. -/
theorem decode_failure_semantics_witness :
    isOkE (decode "enable=yes;type") = false ∧
    (parsePolicy (effectiveConfig "enable=yes;type") 2).enable = false ∧
    shouldBackupToday (effectiveConfig "enable=yes;type") 2 ⟨2024, 1, 15⟩ =
      .ok false ∧
    perInstanceCreate ctDefault 2 dtWit okOrc
      ⟨"i-1", [(ctDefault, "enable=yes;type")]⟩ =
      .ok ([⟨.error, msgParseError "i-1" "i-1" "enable=yes;type"⟩], []) := by
  have h := decode_failure_semantics "enable=yes;type" 2 ⟨2024, 1, 15⟩ dtWit
    okOrc "i-1"
  refine ⟨by decide, (h.2.2.1 (by decide)).1, (h.2.2.1 (by decide)).2, ?_⟩
  exact h.2.2.2 (by decide) (by decide)

/-! ## Oracle independence of the per-item bodies -/

theorem isOkE_map {ε α β : Type} (g : α → β) (e : Except ε α) :
    isOkE (Except.map g e) = isOkE e := by
  cases e <;> rfl

theorem exceptMapM_isOk_congr {ε α β : Type} (f g : α → Except ε β)
    (l : List α) (h : ∀ a ∈ l, isOkE (f a) = isOkE (g a)) :
    isOkE (exceptMapM f l) = isOkE (exceptMapM g l) := by
  induction l with
  | nil => rfl
  | cons a t ih =>
    have ha := h a (List.mem_cons_self a t)
    have ht := ih (fun x hx => h x (List.mem_cons_of_mem a hx))
    simp only [exceptMapM]
    cases hfa : f a with
    | error e =>
      cases hga : g a with
      | error e2 => rfl
      | ok b => rw [hfa, hga] at ha; simp [isOkE] at ha
    | ok b =>
      cases hga : g a with
      | error e2 => rw [hfa, hga] at ha; simp [isOkE] at ha
      | ok b2 =>
        cases hmf : exceptMapM f t with
        | error e3 =>
          cases hmg : exceptMapM g t with
          | error e4 => rfl
          | ok r => rw [hmf, hmg] at ht; simp [isOkE] at ht
        | ok r =>
          cases hmg : exceptMapM g t with
          | error e4 => rw [hmf, hmg] at ht; simp [isOkE] at ht
          | ok r2 => rfl

theorem exceptMapM_ok_length {ε α β : Type} (f : α → Except ε β) (l : List α)
    (h : ∀ a ∈ l, isOkE (f a) = true) :
    ∃ r, exceptMapM f l = .ok r ∧ r.length = l.length := by
  induction l with
  | nil => exact ⟨[], rfl, rfl⟩
  | cons a t ih =>
    obtain ⟨r, hr, hlen⟩ := ih (fun x hx => h x (List.mem_cons_of_mem a hx))
    have ha := h a (List.mem_cons_self a t)
    cases hfa : f a with
    | error e => rw [hfa] at ha; simp [isOkE] at ha
    | ok b =>
      refine ⟨b :: r, ?_, by simp [hlen]⟩
      simp only [exceptMapM, hfa, hr]

theorem perInstanceCreate_isOk_congr (ct : String) (dflt : Nat)
    (now : DateTime) (o o2 : String → RemoteOutcome) (i : Instance) :
    isOkE (perInstanceCreate ct dflt now o i) =
    isOkE (perInstanceCreate ct dflt now o2 i) := by
  simp only [perInstanceCreate]
  cases hl : lookupTagLast i.tags ct with
  | none => rfl
  | some tv =>
    simp only []
    cases hs : shouldBackupToday (effectiveConfig tv) dflt (dateOf now) with
    | error e => rfl
    | ok b =>
      simp only []
      by_cases hb : b = true
      · rw [if_pos hb, if_pos hb]
        cases ho : o (imageNameFor i (parsePolicy (effectiveConfig tv) dflt) now) <;>
          cases ho2 : o2 (imageNameFor i (parsePolicy (effectiveConfig tv) dflt) now) <;>
            simp only [] <;>
              first
              | rfl
              | (split <;> rfl)
              | (split <;> split <;> rfl)
      · rw [if_neg hb, if_neg hb]

theorem perImageTagCopy_isOk_congr (ct : String) (regions : List String)
    (o o2 : String → String → RemoteOutcome) (img : Image)
    (kv : String × String) :
    isOkE (perImageTagCopy ct regions o img kv) =
    isOkE (perImageTagCopy ct regions o2 img kv) := by
  simp only [perImageTagCopy]
  split
  · rcases h : pySplit kv.2 ';' with _ | ⟨x, _ | ⟨y, _ | _⟩⟩ <;> rfl
  · rfl

theorem perImageCopy_isOk_congr (ct : String) (regions : List String)
    (o o2 : String → String → RemoteOutcome) (img : Image) :
    isOkE (perImageCopy ct regions o img) =
    isOkE (perImageCopy ct regions o2 img) := by
  simp only [perImageCopy, isOkE_map]
  exact exceptMapM_isOk_congr _ _ _
    (fun kv _ => perImageTagCopy_isOk_congr ct regions o o2 img kv)

theorem perImageRemoveTag_isOk_congr (ct : String)
    (d1 d2 s1 s2 : String → RemoteOutcome) (today : Date) (img : Image)
    (kv : String × String) :
    isOkE (perImageRemoveTag ct d1 s1 today img kv) =
    isOkE (perImageRemoveTag ct d2 s2 today img kv) := by
  simp only [perImageRemoveTag]
  split
  · cases h : expiredDecision kv.2 today with
    | none => rfl
    | some expired =>
      cases expired with
      | false => rfl
      | true => cases hd1 : d1 img.imageId <;> cases hd2 : d2 img.imageId <;> rfl
  · rfl

theorem perImageRemove_isOk_congr (ct : String)
    (d1 d2 s1 s2 : String → RemoteOutcome) (today : Date) (img : Image) :
    isOkE (perImageRemove ct d1 s1 today img) =
    isOkE (perImageRemove ct d2 s2 today img) := by
  simp only [perImageRemove, isOkE_map]
  exact exceptMapM_isOk_congr _ _ _
    (fun kv _ => perImageRemoveTag_isOk_congr ct d1 d2 s1 s2 today img kv)

/-- Counterexample to C7 as stated: an image whose ExpiryTag value has no
semicolon makes the copy loop raise an uncaught ValueError at the tuple
unpacking of line 252, halting the whole run on a per-item data condition
that is not a startup-phase failure. -/
theorem malformed_expiry_tag_halts_copy :
    copy_images ctDefault ["us-east-1"] okOrc2 [imgNoSemi] = .error valErr := by
  decide

/-- Claim C7 (amended): whenever every per-item body succeeds under
successful remote calls, it also succeeds under arbitrary remote-call
outcomes — a failing create, copy, deregister or delete call is only
logged — and each of the three loops completes with one result per item.
(The run can still halt on malformed tag data: a weekly or monthly policy
without a when entry, an ExpiryTag value without exactly one semicolon, or
an unparsable expiry date; such halts are not startup-phase failures.) -/
theorem remote_failures_isolated_per_item (ct : String) (dflt : Nat)
    (now : DateTime) (regions : List String) (today : Date)
    (insts : List Instance) (imgs : List Image)
    (hc : ∀ i ∈ insts, isOkE (perInstanceCreate ct dflt now okOrc i) = true)
    (hp : ∀ g ∈ imgs, isOkE (perImageCopy ct regions okOrc2 g) = true)
    (hr : ∀ g ∈ imgs, isOkE (perImageRemove ct okOrc okOrc today g) = true) :
    ∀ (cO : String → RemoteOutcome) (pO : String → String → RemoteOutcome)
      (dO sO : String → RemoteOutcome),
      (∃ r, create_images ct dflt now cO insts = .ok r ∧
        r.length = insts.length) ∧
      (∃ r, copy_images ct regions pO imgs = .ok r ∧
        r.length = imgs.length) ∧
      (∃ r, remove_images ct dO sO today imgs = .ok r ∧
        r.length = imgs.length) := by
  intro cO pO dO sO
  unfold create_images copy_images remove_images
  refine ⟨?_, ?_, ?_⟩
  · exact exceptMapM_ok_length _ _ (fun i hi =>
      (perInstanceCreate_isOk_congr ct dflt now cO okOrc i).trans (hc i hi))
  · exact exceptMapM_ok_length _ _ (fun g hg =>
      (perImageCopy_isOk_congr ct regions pO okOrc2 g).trans (hp g hg))
  · exact exceptMapM_ok_length _ _ (fun g hg =>
      (perImageRemove_isOk_congr ct dO okOrc sO okOrc today g).trans (hr g hg))

/-- Witness for C7 (amended): with one backed-up instance and one created
image, the three loops complete even when every remote call fails. -/
theorem remote_failures_isolated_per_item_witness :
    (∃ r, create_images ctDefault 2 dtWit errOrc [instDaily] = .ok r ∧
      r.length = 1) ∧
    (∃ r, copy_images ctDefault ["us-east-1", "us-west-2"] errOrc2 [imgWit] =
      .ok r ∧ r.length = 1) ∧
    (∃ r, remove_images ctDefault errOrc errOrc ⟨2024, 1, 15⟩ [imgWit] =
      .ok r ∧ r.length = 1) :=
  remote_failures_isolated_per_item ctDefault 2 dtWit
    ["us-east-1", "us-west-2"] ⟨2024, 1, 15⟩ [instDaily] [imgWit]
    (by decide) (by decide) (by decide) errOrc errOrc2 errOrc errOrc

/-- Claim C9: after every successful cross-region copy of an image whose
ExpiryTag value is date;targets, the tag writes of the copy step give both
the newly copied image and the source image the ExpiryTag value date;None:
the date component is the one read from the tag, preserved unchanged, and
the copy-target component is cleared to None. -/
theorem copy_clears_targets_preserves_expiry (ct : String)
    (regions : List String) (orc : String → String → RemoteOutcome)
    (img : Image) (date targets : String)
    (hd : ';' ∉ date.toList) (ht : ';' ∉ targets.toList)
    (target : String) (hmem : target ∈ resolveCopyTargets targets regions)
    (copyId : String) (hok : orc img.imageId target = .ok copyId) :
    ∃ evs ws,
      perImageTagCopy ct regions orc img (ct, date ++ ";" ++ targets) =
        .ok (evs, ws) ∧
      (⟨copyId, [(ct, date ++ ";None")]⟩ : TagWrite) ∈ ws ∧
      (⟨img.imageId, [(ct, date ++ ";None")]⟩ : TagWrite) ∈ ws := by
  have hsplit : pySplit (date ++ ";" ++ targets) ';' = [date, targets] :=
    pySplit_append date targets hd ht
  simp only [perImageTagCopy]
  rw [if_pos trivial, hsplit]
  refine ⟨_, _, rfl, ?_, ?_⟩
  · have hx : (⟨copyId, [(ct, date ++ ";None")]⟩ : TagWrite) ∈
        (copyOneTarget ct img date orc target).2 := by
      simp [copyOneTarget, hok]
    exact mem_concatPairs_snd _ _ target hmem _ hx
  · have hx : (⟨img.imageId, [(ct, date ++ ";None")]⟩ : TagWrite) ∈
        (copyOneTarget ct img date orc target).2 := by
      simp [copyOneTarget, hok]
    exact mem_concatPairs_snd _ _ target hmem _ hx

/-- Witness for C9 at a concrete image, date and target. -/
theorem copy_clears_targets_preserves_expiry_witness :
    ∃ evs ws,
      perImageTagCopy ctDefault ["us-east-1", "us-west-2"] copyOrcWit imgWit
        (ctDefault, "2024-01-10" ++ ";" ++ "us-west-2") = .ok (evs, ws) ∧
      (⟨"ami-c", [(ctDefault, "2024-01-10" ++ ";None")]⟩ : TagWrite) ∈ ws ∧
      (⟨"ami-1", [(ctDefault, "2024-01-10" ++ ";None")]⟩ : TagWrite) ∈ ws :=
  copy_clears_targets_preserves_expiry ctDefault ["us-east-1", "us-west-2"]
    copyOrcWit imgWit "2024-01-10" "us-west-2" (by decide) (by decide)
    "us-west-2" (by decide) "ami-c" rfl

end EC2AMI
